import Mathlib

/-!
Verification development for the PerfectAlign puzzle engine.

The numeric model: TypeScript numbers are modelled as exact rationals.
Structures and operations are transcribed from the sources:
  src/src/utils/index.ts          (normalizeAngle, calculateError, getWinRating,
                                   clampScale)
  src/src/stores/gameStore.ts     (loadLevel, updatePieceTransform, addActionLog,
                                   checkWinCondition, snapToGrid, selectPiece,
                                   setGameState)
  src/src/game/GameEngine.ts      (pointerdown / globalpointermove handlers,
                                   sticky snapping, createPiece shape fallback)
  src/src/components/TargetPreview.tsx (GameCanvas getSnapState)
  src/unnamed/part_008            (ReplayPlayer applyAction, FineTuneOverlay
                                   handleZoneAction)
Where a JavaScript primitive matters we model it explicitly: Math.round is
round-half-up on rationals, Math.max / Math.min are max / min.
-/

namespace PerfectAlign

/-- JavaScript Math.round on an exact rational: round half toward positive
infinity, i.e. the floor of the argument plus one half. -/
def jsRound (q : ℚ) : ℤ := ⌊q + 1/2⌋

/-- Source: src/src/utils/index.ts normalizeAngle.  The two while loops
`while (angle > 180) angle -= 360; while (angle < -180) angle += 360` are a
recursion that subtracts or adds 360 until the angle lies in [-180, 180]. -/
def normalizeAngle (angle : ℚ) : ℚ :=
  if angle > 180 then normalizeAngle (angle - 360)
  else if angle < -180 then normalizeAngle (angle + 360)
  else angle
termination_by (⌈|angle|⌉).toNat
decreasing_by
  · rename_i h
    have ha : |angle| = angle := abs_of_pos (by linarith)
    have h181 : (180 : ℤ) < ⌈angle⌉ := by
      rw [Int.lt_ceil]
      exact_mod_cast h
    rcases le_or_lt angle 360 with h2 | h2
    · have e : |angle - 360| = 360 - angle := by
        rw [abs_of_nonpos (by linarith)]; ring
      have hle : ⌈|angle - 360|⌉ ≤ 180 := by
        rw [e]
        refine Int.ceil_le.mpr ?_
        push_cast
        linarith
      rw [ha]
      omega
    · have e : |angle - 360| = angle - 360 := abs_of_pos (by linarith)
      have hc : ⌈|angle - 360|⌉ = ⌈angle⌉ - 360 := by
        rw [e, show (360 : ℚ) = ((360 : ℤ) : ℚ) by norm_num, Int.ceil_sub_int]
      rw [ha, hc]
      omega
  · rename_i h1 h2
    clear h1
    have ha : |angle| = -angle := abs_of_neg (by linarith)
    have h181 : (180 : ℤ) < ⌈-angle⌉ := by
      rw [Int.lt_ceil]
      push_cast
      linarith
    rcases le_or_lt (-360) angle with h3 | h3
    · have e : |angle + 360| = angle + 360 := abs_of_nonneg (by linarith)
      have hle : ⌈|angle + 360|⌉ ≤ 180 := by
        rw [e]
        refine Int.ceil_le.mpr ?_
        push_cast
        linarith
      rw [ha]
      omega
    · have e : |angle + 360| = -angle - 360 := by
        rw [abs_of_nonpos (by linarith)]; ring
      have hc : ⌈|angle + 360|⌉ = ⌈-angle⌉ - 360 := by
        rw [e, show (-angle - 360 : ℚ) = -angle - ((360 : ℤ) : ℚ) by norm_num,
          Int.ceil_sub_int]
      rw [ha, hc]
      omega

/-- Source: src/src/utils/index.ts clampScale:
`Math.max(0.5, Math.min(2.0, scale))`. -/
def clampScale (scale : ℚ) : ℚ := max (1/2) (min 2 scale)

/-! ## Data model (src/src/hooks/useResponsiveScale.ts type section) -/

/-- Transform record, parametric in the number type so that the purely copying
operations (level loading) can also be read at a number type with non-finite
values.  Fields as in the source: x, y in px, rotation in degrees, two scale
factors. -/
structure Transform (α : Type) where
  x : α
  y : α
  rotation : α
  scaleX : α
  scaleY : α
deriving DecidableEq, Repr

/-- Optional piece shape: width and height in px. -/
structure PieceShape where
  width : ℚ
  height : ℚ
deriving DecidableEq, Repr

/-- Piece entry of a level config. -/
structure PieceConfig (α : Type) where
  id : String
  texture : String := ""
  shape : Option PieceShape := none
  start_transform : Transform α
  target_transform : Transform α
deriving DecidableEq, Repr

/-- Level config; of its fields only the piece list is relevant to the claims
(canvas, thresholds and flags are carried opaquely by the callers). -/
structure LevelConfig (α : Type) where
  pieces : List (PieceConfig α)
deriving DecidableEq, Repr

/-- Runtime piece state held by the store. -/
structure PieceState (α : Type) where
  id : String
  texture : String := ""
  current : Transform α
  target : Transform α
deriving DecidableEq, Repr

/-- The GameState union of the source has exactly these five members; the
string WINNING occurs in two consumer components but is not a member of the
type and is never produced by the store. -/
inductive GameState where
  | IDLE
  | PLAYING
  | FINE_TUNE
  | WIN
  | COMPLETE
deriving DecidableEq, Repr

/-- Win rating tiers; the TS union also contains null, modelled by Option. -/
inductive Rating where
  | Perfect
  | Great
  | Good
deriving DecidableEq, Repr

/-- Player selectable snap sizes 1, 5 and 10. -/
inductive SnapSize where
  | s1
  | s5
  | s10
deriving DecidableEq, Repr

/-- Numeric value of the selected snap setting. -/
def SnapSize.val : SnapSize → ℚ
  | .s1 => 1
  | .s5 => 5
  | .s10 => 10

/-- Fine move directions. -/
inductive Direction where
  | up
  | down
  | left
  | right
deriving DecidableEq, Repr

/-- Action log entry types. -/
inductive ActionType where
  | drag
  | fine_move
  | rotate
  | scale
deriving DecidableEq, Repr

/-- Action payload with all fields optional, as in the source interface. -/
structure ActionPayload where
  fromX : Option ℚ := none
  fromY : Option ℚ := none
  toX : Option ℚ := none
  toY : Option ℚ := none
  direction : Option Direction := none
  fromRotation : Option ℚ := none
  toRotation : Option ℚ := none
  fromScaleX : Option ℚ := none
  fromScaleY : Option ℚ := none
  toScaleX : Option ℚ := none
  toScaleY : Option ℚ := none
deriving DecidableEq, Repr

/-- One recorded action: millisecond timestamp relative to level start. -/
structure ActionLog where
  timestamp : ℤ
  pieceId : String
  type : ActionType
  payload : ActionPayload
deriving DecidableEq, Repr

/-- Feedback kinds fired when a piece crosses into tolerance on an axis. -/
inductive FeedbackType where
  | positionX
  | positionY
  | rotation
  | scale
deriving DecidableEq, Repr

/-! ## Win evaluator (src/src/utils/index.ts) -/

/-- Error contribution of a single piece, exactly the summand of the reduce in
calculateError: weights W_POSITION = 1.0, W_ROTATION = 0.5, W_SCALE = 50.0. -/
def pieceErrorTerm (piece : PieceState ℚ) : ℚ :=
  let dx := |piece.current.x - piece.target.x|
  let dy := |piece.current.y - piece.target.y|
  let dr := |normalizeAngle (piece.current.rotation - piece.target.rotation)|
  let dsx := |piece.current.scaleX - piece.target.scaleX|
  let dsy := |piece.current.scaleY - piece.target.scaleY|
  (dx + dy) * 1 + dr * (1/2) + (dsx + dsy) * 50

/-- Source: src/src/utils/index.ts calculateError — a reduce over the pieces
starting from 0, adding the weighted per-piece term. -/
def calculateError (pieces : List (PieceState ℚ)) : ℚ :=
  pieces.foldl (fun total piece =>
    let dx := |piece.current.x - piece.target.x|
    let dy := |piece.current.y - piece.target.y|
    let dr := |normalizeAngle (piece.current.rotation - piece.target.rotation)|
    let dsx := |piece.current.scaleX - piece.target.scaleX|
    let dsy := |piece.current.scaleY - piece.target.scaleY|
    total + ((dx + dy) * 1 + dr * (1/2) + (dsx + dsy) * 50)) 0

/-- Source: src/src/utils/index.ts getWinRating — the strict tier policy with
cutoffs 0, 0.01 and 0.1. -/
def getWinRating (totalError : ℚ) : Option Rating :=
  if totalError = 0 then some .Perfect
  else if totalError < 1/100 then some .Great
  else if totalError < 1/10 then some .Good
  else none

/-! ## Store (src/src/stores/gameStore.ts) -/

/-- Zustand store state, with the timer-driven auto clear of the feedback
fields left out (it only nulls the three feedback fields 1.5 s later). -/
structure GameStoreState where
  gameState : GameState
  levelConfig : Option (LevelConfig ℚ)
  pieces : List (PieceState ℚ)
  selectedPieceId : Option String
  actionLogs : List ActionLog
  gameStartTime : ℤ
  isPreviewActive : Bool
  winRating : Option Rating
  totalError : ℚ
  snapSize : SnapSize
  activeFeedback : Option FeedbackType
  feedbackPieceId : Option String
  feedbackTargetPos : Option (ℚ × ℚ)
deriving DecidableEq, Repr

/-- The piece list built by loadLevel: spread copies of the config transforms,
generic in the number type because the source does no arithmetic here. -/
def loadLevelPieces {α : Type} (config : LevelConfig α) : List (PieceState α) :=
  config.pieces.map fun p =>
    { id := p.id, texture := p.texture,
      current := p.start_transform, target := p.target_transform }

/-- Source: gameStore.ts loadLevel.  The wall clock read Date.now() is passed
in as the parameter now. -/
def loadLevel (st : GameStoreState) (config : LevelConfig ℚ) (now : ℤ) :
    GameStoreState :=
  { st with
    levelConfig := some config
    pieces := loadLevelPieces config
    gameState := .PLAYING
    selectedPieceId := none
    actionLogs := []
    gameStartTime := now
    isPreviewActive := false
    winRating := none
    totalError := 0
    activeFeedback := none
    feedbackPieceId := none
    feedbackTargetPos := none }

/-- Source: gameStore.ts selectPiece. -/
def selectPiece (st : GameStoreState) (id : Option String) : GameStoreState :=
  { st with selectedPieceId := id }

/-- Source: gameStore.ts setGameState. -/
def setGameState (st : GameStoreState) (s : GameState) : GameStoreState :=
  { st with gameState := s }

/-- Source: gameStore.ts setPreviewActive. -/
def setPreviewActive (st : GameStoreState) (active : Bool) : GameStoreState :=
  { st with isPreviewActive := active }

/-- Source: gameStore.ts setSnapSize. -/
def setSnapSize (st : GameStoreState) (size : SnapSize) : GameStoreState :=
  { st with snapSize := size }

/-- Partial transform argument of updatePieceTransform: callers supply only
the changed fields. -/
structure TransformPatch where
  x : Option ℚ := none
  y : Option ℚ := none
  rotation : Option ℚ := none
  scaleX : Option ℚ := none
  scaleY : Option ℚ := none
deriving DecidableEq, Repr

/-- The merged transform computed by updatePieceTransform: provided rotation
is normalized, provided scales are clamped, provided x and y are taken as is,
omitted fields keep the previous value. -/
def mergePatch (current : Transform ℚ) (transform : TransformPatch) :
    Transform ℚ :=
  { x := match transform.x with | some v => v | none => current.x
    y := match transform.y with | some v => v | none => current.y
    rotation := match transform.rotation with
      | some v => normalizeAngle v
      | none => current.rotation
    scaleX := match transform.scaleX with
      | some v => clampScale v
      | none => current.scaleX
    scaleY := match transform.scaleY with
      | some v => clampScale v
      | none => current.scaleY }

/-- Source: gameStore.ts updatePieceTransform, including the tolerance
crossing detection that drives the one-shot feedback event (thresholds 0.5
degrees, 0.02 scale, 2 px); the 1.5 s auto clear timer is not modelled. -/
def updatePieceTransform (st : GameStoreState) (id : String)
    (transform : TransformPatch) : GameStoreState :=
  match st.pieces.find? (fun p => p.id = id) with
  | none => st
  | some piece =>
    let wasRotationCorrect :=
      |piece.current.rotation - piece.target.rotation| < 1/2
    let wasScaleCorrect :=
      |piece.current.scaleX - piece.target.scaleX| < 1/50 ∧
      |piece.current.scaleY - piece.target.scaleY| < 1/50
    let wasXCorrect := |piece.current.x - piece.target.x| < 2
    let wasYCorrect := |piece.current.y - piece.target.y| < 2
    let newCurrent := mergePatch piece.current transform
    let isRotationCorrect :=
      |newCurrent.rotation - piece.target.rotation| < 1/2
    let isScaleCorrect :=
      |newCurrent.scaleX - piece.target.scaleX| < 1/50 ∧
      |newCurrent.scaleY - piece.target.scaleY| < 1/50
    let isXCorrect := |newCurrent.x - piece.target.x| < 2
    let isYCorrect := |newCurrent.y - piece.target.y| < 2
    let feedback : Option FeedbackType :=
      if st.activeFeedback.isSome then none
      else if ¬ wasXCorrect ∧ isXCorrect then some .positionX
      else if ¬ wasYCorrect ∧ isYCorrect then some .positionY
      else if ¬ wasRotationCorrect ∧ isRotationCorrect then some .rotation
      else if ¬ wasScaleCorrect ∧ isScaleCorrect then some .scale
      else none
    let targetPos := (piece.target.x, piece.target.y)
    { st with
      pieces := st.pieces.map fun p =>
        if p.id = id then { p with current := newCurrent } else p
      activeFeedback := match feedback with
        | some f => some f
        | none => st.activeFeedback
      feedbackPieceId := if feedback.isSome then some id else st.feedbackPieceId
      feedbackTargetPos :=
        if feedback.isSome then some targetPos else st.feedbackTargetPos }

/-- Source: gameStore.ts addActionLog — appends one entry stamped with the
milliseconds since level start. -/
def addActionLog (st : GameStoreState) (pieceId : String) (type : ActionType)
    (payload : ActionPayload) (now : ℤ) : GameStoreState :=
  { st with
    actionLogs := st.actionLogs ++
      [{ timestamp := now - st.gameStartTime, pieceId := pieceId,
         type := type, payload := payload }] }

/-- Source: gameStore.ts checkWinCondition — recomputes totalError, and on a
non-null rating sets winRating and jumps the state to WIN in the same update
(the two set calls merge on the same store). -/
def checkWinCondition (st : GameStoreState) : GameStoreState :=
  match st.levelConfig with
  | none => st
  | some _ =>
    match getWinRating (calculateError st.pieces) with
    | some r =>
        { st with totalError := calculateError st.pieces,
                  winRating := some r, gameState := .WIN }
    | none => { st with totalError := calculateError st.pieces }

/-- Source: gameStore.ts snapToGrid — maps the selected setting 1, 5, 10 to
the actual grid 5, 10, 20 px and rounds to a multiple of the actual grid. -/
def snapToGrid (st : GameStoreState) (value : ℚ) : ℚ :=
  let actualSnap : ℚ :=
    if st.snapSize = .s1 then 5 else if st.snapSize = .s5 then 10 else 20
  (jsRound (value / actualSnap) : ℚ) * actualSnap

/-- Source: src/src/components/TargetPreview.tsx GameCanvas getSnapState —
the grid size handed to the GameEngine, with the same 1 to 5, 5 to 10,
10 to 20 mapping; enabled is always true. -/
def getSnapState (st : GameStoreState) : Bool × ℚ :=
  let actualSnap : ℚ :=
    if st.snapSize = .s1 then 5 else if st.snapSize = .s5 then 10 else 20
  (true, actualSnap)

/-! ## Interaction engine (src/src/game/GameEngine.ts) -/

/-- The mutable fields of GameEngine that the pointer handlers touch.
activeTouchCount stands for activeTouches.size. -/
structure EngineState where
  selectedPieceId : Option String
  isDragging : Bool
  draggingPieceId : Option String
  dragOffset : ℚ × ℚ
  targetPosition : ℚ × ℚ
  lastTapTime : ℤ
  lastSnappedX : ℚ
  lastSnappedY : ℚ
  activeTouchCount : ℕ
deriving DecidableEq, Repr

/-- Callbacks the engine fires into the store layer. -/
inductive EngineEvent where
  | pieceSelect (id : Option String)
  | doubleTap (id : String)
  | transformEnd (id : String) (x y : ℚ)
deriving DecidableEq, Repr

/-- Source: GameEngine.ts setupPieceInteraction pointerdown handler.  The
sprite position (sx, sy) and the pointer global position (gx, gy) are inputs;
now is Date.now() in ms. -/
def pointerDown (st : EngineState) (pieceId : String) (now : ℤ)
    (sx sy gx gy : ℚ) : EngineState × List EngineEvent :=
  if st.activeTouchCount > 1 then (st, [])
  else
    let isDoubleTap :=
      now - st.lastTapTime < 300 ∧ st.selectedPieceId = some pieceId
    if isDoubleTap then
      ({ st with lastTapTime := 0 }, [.doubleTap pieceId])
    else
      ({ st with
          lastTapTime := now
          selectedPieceId := some pieceId
          isDragging := true
          draggingPieceId := some pieceId
          lastSnappedX := sx
          lastSnappedY := sy
          targetPosition := (sx, sy)
          dragOffset := (sx - gx, sy - gy) },
       [.pieceSelect (some pieceId)])

/-- Per-axis sticky snap step of the globalpointermove handler: when the grid
size is positive, leave the last snapped value unless the raw coordinate is at
least half a cell away, in which case jump to the rounded grid point; when the
grid size is zero or negative, pass the raw coordinate through. -/
def stickySnapAxis (snapSize lastSnapped raw : ℚ) : ℚ :=
  if snapSize > 0 then
    if |raw - lastSnapped| ≥ snapSize / 2 then
      (jsRound (raw / snapSize) : ℚ) * snapSize
    else lastSnapped
  else raw

/-- Source: GameEngine.ts setupPieceInteraction globalpointermove handler.
snapSize comes from getSnapState; raw target is global position plus the drag
offset; both axes are snapped independently and the buffered targetPosition is
set to the snapped pair (flushed by the render loop, not written here). -/
def globalPointerMove (st : EngineState) (pieceId : String) (snapSize : ℚ)
    (gx gy : ℚ) : EngineState :=
  if ¬ st.isDragging ∨ st.draggingPieceId ≠ some pieceId then st
  else if st.activeTouchCount > 1 then st
  else
    let newRawX := gx + st.dragOffset.1
    let newRawY := gy + st.dragOffset.2
    let nextSnappedX := stickySnapAxis snapSize st.lastSnappedX newRawX
    let nextSnappedY := stickySnapAxis snapSize st.lastSnappedY newRawY
    { st with
        lastSnappedX := nextSnappedX
        lastSnappedY := nextSnappedY
        targetPosition := (nextSnappedX, nextSnappedY) }

/-- Source: GameEngine.ts pointerup handler: while dragging this piece, leave
the drag state, pin the sprite to the last snapped point and commit it once
through onPieceTransformEnd. -/
def pointerUp (st : EngineState) (pieceId : String) :
    EngineState × List EngineEvent :=
  if st.isDragging ∧ st.draggingPieceId = some pieceId then
    ({ st with isDragging := false, draggingPieceId := none },
     [.transformEnd pieceId st.lastSnappedX st.lastSnappedY])
  else (st, [])

/-- Source: GameEngine.ts createPiece — width of a piece whose config shape is
missing falls back to the fixed 100. -/
def createPieceWidth (shape : Option PieceShape) : ℚ :=
  match shape with
  | some s => s.width
  | none => 100

/-- Source: GameEngine.ts createPiece — height fallback 100. -/
def createPieceHeight (shape : Option PieceShape) : ℚ :=
  match shape with
  | some s => s.height
  | none => 100

/-! ## Fine tune dispatcher (src/unnamed/part_008 and part_009,
FineTuneOverlay handleZoneAction) -/

/-- Directional zones of the fine tune overlay. -/
inductive Zone where
  | TOP
  | BOTTOM
  | LEFT
  | RIGHT
  | CENTER
deriving DecidableEq, Repr

/-- The shared tail of a directional zone tap: move the selected piece by
(dx, dy) through the single mutation entry point, append one fine_move log
entry holding only the direction, then re-evaluate the win condition. -/
def fineMoveStep (st : GameStoreState) (selectedPieceId : String)
    (piece : PieceState ℚ) (dx dy : ℚ) (direction : Direction) (now : ℤ) :
    GameStoreState :=
  let st1 := updatePieceTransform st selectedPieceId
    { x := some (piece.current.x + dx), y := some (piece.current.y + dy) }
  let st2 := addActionLog st1 selectedPieceId .fine_move
    { direction := some direction } now
  checkWinCondition st2

/-- Source: FineTuneOverlay handleZoneAction.  A CENTER tap returns to
PLAYING; a directional tap nudges the selected piece by the raw selected
snapSize (1, 5 or 10 px), records one fine_move entry holding only the
direction, and re-evaluates the win condition. -/
def handleZoneAction (st : GameStoreState) (zone : Zone) (now : ℤ) :
    GameStoreState :=
  match st.selectedPieceId with
  | none => st
  | some selectedPieceId =>
    match st.pieces.find? (fun p => p.id = selectedPieceId) with
    | none => st
    | some piece =>
      match zone with
      | .CENTER => setGameState st .PLAYING
      | .TOP => fineMoveStep st selectedPieceId piece 0 (-st.snapSize.val) .up now
      | .BOTTOM => fineMoveStep st selectedPieceId piece 0 st.snapSize.val .down now
      | .LEFT => fineMoveStep st selectedPieceId piece (-st.snapSize.val) 0 .left now
      | .RIGHT => fineMoveStep st selectedPieceId piece st.snapSize.val 0 .right now

/-! ## Replay engine (src/unnamed/part_008, ReplayPlayer) -/

/-- Source: ReplayPlayer applyAction.  The shadow piece set is the Map from
piece id to Transform; an unknown pieceId is a no-op.  Note the fine_move
branch: it always moves by exactly 1 px in the given direction. -/
def applyAction (prev : List (String × Transform ℚ)) (action : ActionLog) :
    List (String × Transform ℚ) :=
  match prev.find? (fun e => e.1 = action.pieceId) with
  | none => prev
  | some (_, piece) =>
    let updatedPiece : Transform ℚ :=
      match action.type with
      | .drag =>
        let p1 := match action.payload.toX with
          | some v => { piece with x := v }
          | none => piece
        match action.payload.toY with
        | some v => { p1 with y := v }
        | none => p1
      | .fine_move =>
        match action.payload.direction with
        | some .up => { piece with y := piece.y - 1 }
        | some .down => { piece with y := piece.y + 1 }
        | some .left => { piece with x := piece.x - 1 }
        | some .right => { piece with x := piece.x + 1 }
        | none => piece
      | .rotate =>
        match action.payload.toRotation with
        | some v => { piece with rotation := v }
        | none => piece
      | .scale =>
        let p1 := match action.payload.toScaleX with
          | some v => { piece with scaleX := v }
          | none => piece
        match action.payload.toScaleY with
        | some v => { p1 with scaleY := v }
        | none => p1
    prev.map fun e =>
      if e.1 = action.pieceId then (e.1, updatedPiece) else e

/-- Source: ReplayPlayer initialization and resetReplay — the shadow set
starts from each configured start_transform. -/
def initReplayPieces {α : Type} (config : LevelConfig α) :
    List (String × Transform α) :=
  config.pieces.map fun p => (p.id, p.start_transform)

/-- Replaying a full log in order from the start transforms (the composition
performed by play-to-end, and by stepBackward for a prefix). -/
def replayAll (config : LevelConfig ℚ) (logs : List ActionLog) :
    List (String × Transform ℚ) :=
  logs.foldl applyAction (initReplayPieces config)

/-! ## Concrete fixtures used by the witnesses and counterexamples -/

/-- Identity transform at the origin. -/
def tfZero : Transform ℚ :=
  { x := 0, y := 0, rotation := 0, scaleX := 1, scaleY := 1 }

/-- The initial store state, as in the create call of gameStore.ts. -/
def emptyStore : GameStoreState :=
  { gameState := .IDLE
    levelConfig := none
    pieces := []
    selectedPieceId := none
    actionLogs := []
    gameStartTime := 0
    isPreviewActive := false
    winRating := none
    totalError := 0
    snapSize := .s1
    activeFeedback := none
    feedbackPieceId := none
    feedbackTargetPos := none }

/-- An idle engine with no selection, no drag and no active touches. -/
def idleEngine : EngineState :=
  { selectedPieceId := none
    isDragging := false
    draggingPieceId := none
    dragOffset := (0, 0)
    targetPosition := (0, 0)
    lastTapTime := 0
    lastSnappedX := 0
    lastSnappedY := 0
    activeTouchCount := 0 }

/-- C3 counterexample piece: rotations 180 and -180 are distinct stored
values whose difference 360 normalizes to 0, so the weighted error vanishes
although the transforms are not equal. -/
def c3Piece : PieceState ℚ :=
  { id := "p1"
    current := { x := 0, y := 0, rotation := 180, scaleX := 1, scaleY := 1 }
    target := { x := 0, y := 0, rotation := -180, scaleX := 1, scaleY := 1 } }

/-- A piece exactly on target, for the C3 witness. -/
def c3Exact : PieceState ℚ := { id := "p1", current := tfZero, target := tfZero }

/-- C4 fixture: the spec scenario — one piece starting at the origin whose
target is (100, 50, 0 degrees, 1, 1). -/
def c4Config : LevelConfig ℚ :=
  { pieces :=
      [{ id := "p1", start_transform := tfZero,
         target_transform :=
           { x := 100, y := 50, rotation := 0, scaleX := 1, scaleY := 1 } }] }

/-- The store after loading the C4 level and committing a drag to exactly
(100, 50). -/
def c4Store1 : GameStoreState :=
  updatePieceTransform (loadLevel emptyStore c4Config 0) "p1"
    { x := some 100, y := some 50 }

/-- C5 fixture: a level config whose start transform is neither normalized
(rotation 270) nor clamped (scaleX 3). -/
def c5Config : LevelConfig ℚ :=
  { pieces :=
      [{ id := "p1",
         start_transform :=
           { x := 0, y := 0, rotation := 270, scaleX := 3, scaleY := 1 },
         target_transform := tfZero }] }

/-- The store right after loading the C5 level. -/
def c5Store : GameStoreState := loadLevel emptyStore c5Config 0

/-- The patch used by the C5 witness. -/
def c5Patch : TransformPatch := { rotation := some 270, scaleX := some 3 }

/-- The piece stored after applying the C5 witness patch: rotation is
normalized to -90 and scaleX clamped to 2. -/
def c5Updated : PieceState ℚ :=
  { id := "p1"
    current := { x := 0, y := 0, rotation := -90, scaleX := 2, scaleY := 1 }
    target := tfZero }

/-- C6 fixture: a piece 0.05 px off target, giving total error 1/20 which
rates Good. -/
def c6Piece : PieceState ℚ :=
  { id := "p1"
    current := { x := 1/20, y := 0, rotation := 0, scaleX := 1, scaleY := 1 }
    target := tfZero }

/-- A store that has already won with a Perfect rating but whose pieces have
since drifted to error 1/20. -/
def c6Store : GameStoreState :=
  { emptyStore with
      gameState := .WIN
      levelConfig := some { pieces := [] }
      pieces := [c6Piece]
      winRating := some .Perfect }

/-- C1 fixture: one piece at the origin with a far target, snap setting 5,
fine tune mode, piece selected. -/
def c1Config : LevelConfig ℚ :=
  { pieces :=
      [{ id := "p1", start_transform := tfZero,
         target_transform :=
           { x := 200, y := 0, rotation := 0, scaleX := 1, scaleY := 1 } }] }

/-- The live store before the fine move: level loaded, snap setting 5,
fine tune mode with p1 selected. -/
def c1Store : GameStoreState :=
  { loadLevel emptyStore c1Config 0 with
      gameState := .FINE_TUNE
      selectedPieceId := some "p1"
      snapSize := .s5 }

/-- The live store after one fine move to the right. -/
def c1Live : GameStoreState := handleZoneAction c1Store .RIGHT 1000

/-- Number type with the non-finite IEEE values, used to read the purely
copying load path at full fidelity for C8. -/
inductive JsNumber where
  | finite (q : ℚ)
  | nan
  | posInf
  | negInf
deriving DecidableEq, Repr

/-- C8 fixture: a malformed level config carrying non-finite start values
and no shape. -/
def c8BadConfig : LevelConfig JsNumber :=
  { pieces :=
      [{ id := "p1",
         start_transform :=
           { x := .nan, y := .finite 0, rotation := .posInf,
             scaleX := .finite 1, scaleY := .finite 1 },
         target_transform :=
           { x := .finite 0, y := .finite 0, rotation := .finite 0,
             scaleX := .finite 1, scaleY := .finite 1 } }] }

lemma normalizeAngle_le (a : ℚ) : normalizeAngle a ≤ 180 := by
  induction a using normalizeAngle.induct with
  | case1 a h ih => rw [normalizeAngle, if_pos h]; exact ih
  | case2 a h1 h2 ih =>
      rw [normalizeAngle, if_neg h1, if_pos h2]; exact ih
  | case3 a h1 h2 =>
      rw [normalizeAngle, if_neg h1, if_neg h2]
      linarith [not_lt.mp h1]

lemma le_normalizeAngle (a : ℚ) : -180 ≤ normalizeAngle a := by
  induction a using normalizeAngle.induct with
  | case1 a h ih => rw [normalizeAngle, if_pos h]; exact ih
  | case2 a h1 h2 ih =>
      rw [normalizeAngle, if_neg h1, if_pos h2]; exact ih
  | case3 a h1 h2 =>
      rw [normalizeAngle, if_neg h1, if_neg h2]
      linarith [not_lt.mp h2]

lemma normalizeAngle_of_mem (a : ℚ) (h1 : a ≤ 180) (h2 : -180 ≤ a) :
    normalizeAngle a = a := by
  rw [normalizeAngle, if_neg (by linarith), if_neg (by linarith)]

@[simp] lemma normalizeAngle_zero : normalizeAngle 0 = 0 := by
  rw [normalizeAngle_of_mem] <;> norm_num

@[simp] lemma normalizeAngle_360 : normalizeAngle 360 = 0 := by
  rw [normalizeAngle, if_pos (by norm_num)]
  norm_num

/-- normalizeAngle vanishes exactly on whole multiples of 360 degrees. -/
lemma normalizeAngle_eq_zero_iff (a : ℚ) :
    normalizeAngle a = 0 ↔ ∃ k : ℤ, a = 360 * k := by
  induction a using normalizeAngle.induct with
  | case1 a h ih =>
      rw [normalizeAngle, if_pos h, ih]
      constructor
      · rintro ⟨k, hk⟩
        exact ⟨k + 1, by push_cast; linarith⟩
      · rintro ⟨k, hk⟩
        exact ⟨k - 1, by push_cast; linarith⟩
  | case2 a h1 h2 ih =>
      rw [normalizeAngle, if_neg h1, if_pos h2, ih]
      constructor
      · rintro ⟨k, hk⟩
        exact ⟨k - 1, by push_cast; linarith⟩
      · rintro ⟨k, hk⟩
        exact ⟨k + 1, by push_cast; linarith⟩
  | case3 a h1 h2 =>
      rw [normalizeAngle, if_neg h1, if_neg h2]
      constructor
      · rintro rfl
        exact ⟨0, by norm_num⟩
      · rintro ⟨k, hk⟩
        have hle : a ≤ 180 := not_lt.mp h1
        have hge : -180 ≤ a := not_lt.mp h2
        have hk1 : (k : ℚ) < 1 := by nlinarith
        have hk2 : (-1 : ℚ) < (k : ℚ) := by nlinarith
        have p1 : k < 1 := by exact_mod_cast hk1
        have p2 : (-1 : ℤ) < k := by exact_mod_cast hk2
        have hk0 : k = 0 := by omega
        subst hk0
        simpa using hk

lemma calculateError_cons (p : PieceState ℚ) (l : List (PieceState ℚ)) :
    calculateError (p :: l) = pieceErrorTerm p + calculateError l := by
  show List.foldl _ (0 + pieceErrorTerm p) l = _
  have aux : ∀ (l : List (PieceState ℚ)) (a b : ℚ),
      List.foldl (fun total piece =>
        let dx := |piece.current.x - piece.target.x|
        let dy := |piece.current.y - piece.target.y|
        let dr := |normalizeAngle (piece.current.rotation - piece.target.rotation)|
        let dsx := |piece.current.scaleX - piece.target.scaleX|
        let dsy := |piece.current.scaleY - piece.target.scaleY|
        total + ((dx + dy) * 1 + dr * (1/2) + (dsx + dsy) * 50)) (a + b) l
      = b + List.foldl (fun total piece =>
        let dx := |piece.current.x - piece.target.x|
        let dy := |piece.current.y - piece.target.y|
        let dr := |normalizeAngle (piece.current.rotation - piece.target.rotation)|
        let dsx := |piece.current.scaleX - piece.target.scaleX|
        let dsy := |piece.current.scaleY - piece.target.scaleY|
        total + ((dx + dy) * 1 + dr * (1/2) + (dsx + dsy) * 50)) a l := by
    intro l
    induction l with
    | nil => intro a b; simp [List.foldl]; ring
    | cons q t ih =>
        intro a b
        simp only [List.foldl]
        rw [show ∀ c d e : ℚ, c + d + e = c + e + d by intro c d e; ring]
        exact ih _ _
  rw [show (0 : ℚ) + pieceErrorTerm p = 0 + pieceErrorTerm p from rfl]
  exact aux l 0 (pieceErrorTerm p)

lemma pieceErrorTerm_nonneg (p : PieceState ℚ) : 0 ≤ pieceErrorTerm p := by
  unfold pieceErrorTerm
  positivity

lemma calculateError_nonneg (pieces : List (PieceState ℚ)) :
    0 ≤ calculateError pieces := by
  induction pieces with
  | nil => simp [calculateError]
  | cons p l ih =>
      rw [calculateError_cons]
      have := pieceErrorTerm_nonneg p
      linarith

lemma pieceErrorTerm_eq_zero_iff (p : PieceState ℚ) :
    pieceErrorTerm p = 0 ↔
      p.current.x = p.target.x ∧ p.current.y = p.target.y ∧
      normalizeAngle (p.current.rotation - p.target.rotation) = 0 ∧
      p.current.scaleX = p.target.scaleX ∧ p.current.scaleY = p.target.scaleY := by
  unfold pieceErrorTerm
  simp only
  constructor
  · intro h
    have hx := abs_nonneg (p.current.x - p.target.x)
    have hy := abs_nonneg (p.current.y - p.target.y)
    have hr := abs_nonneg (normalizeAngle (p.current.rotation - p.target.rotation))
    have hsx := abs_nonneg (p.current.scaleX - p.target.scaleX)
    have hsy := abs_nonneg (p.current.scaleY - p.target.scaleY)
    refine ⟨?_, ?_, ?_, ?_, ?_⟩
    · have : |p.current.x - p.target.x| = 0 := by linarith
      have := abs_eq_zero.mp this
      linarith
    · have : |p.current.y - p.target.y| = 0 := by linarith
      have := abs_eq_zero.mp this
      linarith
    · have : |normalizeAngle (p.current.rotation - p.target.rotation)| = 0 := by
        linarith
      exact abs_eq_zero.mp this
    · have : |p.current.scaleX - p.target.scaleX| = 0 := by linarith
      have := abs_eq_zero.mp this
      linarith
    · have : |p.current.scaleY - p.target.scaleY| = 0 := by linarith
      have := abs_eq_zero.mp this
      linarith
  · rintro ⟨hx, hy, hr, hsx, hsy⟩
    rw [hx, hy, hr, hsx, hsy]
    simp

lemma calculateError_eq_zero_iff (pieces : List (PieceState ℚ)) :
    calculateError pieces = 0 ↔ ∀ p ∈ pieces, pieceErrorTerm p = 0 := by
  induction pieces with
  | nil => simp [calculateError]
  | cons p l ih =>
      rw [calculateError_cons]
      constructor
      · intro h
        have h1 := pieceErrorTerm_nonneg p
        have h2 := calculateError_nonneg l
        have hp : pieceErrorTerm p = 0 := by linarith
        have hl : calculateError l = 0 := by linarith
        intro q hq
        rcases List.mem_cons.mp hq with rfl | hq
        · exact hp
        · exact ih.mp hl q hq
      · intro h
        have hp : pieceErrorTerm p = 0 := h p (List.mem_cons_self p l)
        have hl : calculateError l = 0 := ih.mpr fun q hq => h q (List.mem_cons_of_mem _ hq)
        rw [hp, hl]
        ring

/-- Projections of checkWinCondition that do not depend on the computed
rating: the piece list is never changed by a win check. -/
lemma checkWinCondition_pieces (st : GameStoreState) :
    (checkWinCondition st).pieces = st.pieces := by
  unfold checkWinCondition
  cases st.levelConfig with
  | none => rfl
  | some cfg =>
      cases getWinRating (calculateError st.pieces) with
      | none => rfl
      | some r => rfl

/-- The action log is never changed by a win check. -/
lemma checkWinCondition_actionLogs (st : GameStoreState) :
    (checkWinCondition st).actionLogs = st.actionLogs := by
  unfold checkWinCondition
  cases st.levelConfig with
  | none => rfl
  | some cfg =>
      cases getWinRating (calculateError st.pieces) with
      | none => rfl
      | some r => rfl

/-- checkWinCondition without a loaded level is the identity. -/
lemma checkWinCondition_of_no_level (st : GameStoreState)
    (hc : st.levelConfig = none) : checkWinCondition st = st := by
  unfold checkWinCondition
  rw [hc]

/-- checkWinCondition on a passing rating: totalError, winRating and the WIN
state are written together. -/
lemma checkWinCondition_of_rating (st : GameStoreState) (cfg : LevelConfig ℚ)
    (r : Rating) (hc : st.levelConfig = some cfg)
    (hr : getWinRating (calculateError st.pieces) = some r) :
    checkWinCondition st
      = { st with totalError := calculateError st.pieces,
                  winRating := some r, gameState := .WIN } := by
  unfold checkWinCondition
  rw [hc]
  simp only
  rw [hr]

/-- checkWinCondition on a failing rating: only totalError is rewritten. -/
lemma checkWinCondition_of_no_rating (st : GameStoreState)
    (cfg : LevelConfig ℚ) (hc : st.levelConfig = some cfg)
    (hr : getWinRating (calculateError st.pieces) = none) :
    checkWinCondition st = { st with totalError := calculateError st.pieces } := by
  unfold checkWinCondition
  rw [hc]
  simp only
  rw [hr]

lemma clampScale_le (s : ℚ) : clampScale s ≤ 2 := by
  rw [clampScale]
  exact max_le (by norm_num) (min_le_left _ _)

lemma le_clampScale (s : ℚ) : 1/2 ≤ clampScale s := le_max_left _ _

lemma normalizeAngle_270 : normalizeAngle 270 = -90 := by
  rw [normalizeAngle, if_pos (by norm_num)]
  rw [show (270 : ℚ) - 360 = -90 by norm_num]
  rw [normalizeAngle_of_mem] <;> norm_num

lemma clampScale_three : clampScale 3 = 2 := by
  rw [clampScale, min_eq_left (by norm_num), max_eq_right (by norm_num)]

/-- updatePieceTransform never touches the game state field. -/
lemma updatePieceTransform_gameState (st : GameStoreState) (id : String)
    (t : TransformPatch) :
    (updatePieceTransform st id t).gameState = st.gameState := by
  unfold updatePieceTransform
  cases st.pieces.find? (fun p => p.id = id) with
  | none => rfl
  | some piece => rfl

/-- updatePieceTransform never touches the action log. -/
lemma updatePieceTransform_actionLogs (st : GameStoreState) (id : String)
    (t : TransformPatch) :
    (updatePieceTransform st id t).actionLogs = st.actionLogs := by
  unfold updatePieceTransform
  cases st.pieces.find? (fun p => p.id = id) with
  | none => rfl
  | some piece => rfl

/-- updatePieceTransform never touches the level start time. -/
lemma updatePieceTransform_gameStartTime (st : GameStoreState) (id : String)
    (t : TransformPatch) :
    (updatePieceTransform st id t).gameStartTime = st.gameStartTime := by
  unfold updatePieceTransform
  cases st.pieces.find? (fun p => p.id = id) with
  | none => rfl
  | some piece => rfl

/-- updatePieceTransform never touches the loaded level config. -/
lemma updatePieceTransform_levelConfig (st : GameStoreState) (id : String)
    (t : TransformPatch) :
    (updatePieceTransform st id t).levelConfig = st.levelConfig := by
  unfold updatePieceTransform
  cases st.pieces.find? (fun p => p.id = id) with
  | none => rfl
  | some piece => rfl

/-- addActionLog only appends to the log. -/
lemma addActionLog_pieces (st : GameStoreState) (pieceId : String)
    (type : ActionType) (payload : ActionPayload) (now : ℤ) :
    (addActionLog st pieceId type payload now).pieces = st.pieces := rfl

/-- addActionLog keeps the level config. -/
lemma addActionLog_levelConfig (st : GameStoreState) (pieceId : String)
    (type : ActionType) (payload : ActionPayload) (now : ℤ) :
    (addActionLog st pieceId type payload now).levelConfig = st.levelConfig := rfl

/-! ## Claims -/

/-- C2: per-axis sticky snapping.  For every drag move event, per axis
independently: if the raw coordinate differs from lastSnapped by at least
size/2 the new snapped value is round(raw/size)*size and lastSnapped is
updated, otherwise the previous snapped value is retained; with grid size 10
and lastSnapped x = 10 the raw sequence 10, 14, 19, 26, 31 yields snapped
values 10, 10, 20, 30, 30 (no change until raw 19, never back below); and a
non-positive size passes the raw coordinate through unchanged. -/
theorem C2_sticky_snap :
    (∀ size last raw : ℚ, 0 < size →
      (size / 2 ≤ |raw - last| →
        stickySnapAxis size last raw = (jsRound (raw / size) : ℚ) * size) ∧
      (|raw - last| < size / 2 → stickySnapAxis size last raw = last)) ∧
    (∀ size last raw : ℚ, size ≤ 0 → stickySnapAxis size last raw = raw) ∧
    (∀ (st : EngineState) (pieceId : String) (size gx gy : ℚ),
      st.isDragging = true → st.draggingPieceId = some pieceId →
      st.activeTouchCount ≤ 1 →
      (globalPointerMove st pieceId size gx gy).lastSnappedX
          = stickySnapAxis size st.lastSnappedX (gx + st.dragOffset.1) ∧
      (globalPointerMove st pieceId size gx gy).lastSnappedY
          = stickySnapAxis size st.lastSnappedY (gy + st.dragOffset.2)) ∧
    List.scanl (fun last raw => stickySnapAxis 10 last raw) 10 [10, 14, 19, 26, 31]
      = [10, 10, 10, 20, 30, 30] := by
  refine ⟨?_, ?_, ?_, ?_⟩
  · intro size last raw hpos
    constructor
    · intro h
      rw [stickySnapAxis, if_pos hpos, if_pos h]
    · intro h
      rw [stickySnapAxis, if_pos hpos, if_neg (not_le.mpr h)]
  · intro size last raw h
    rw [stickySnapAxis, if_neg (not_lt.mpr h)]
  · intro st pieceId size gx gy h1 h2 h3
    have g1 : ¬ (¬ st.isDragging = true ∨ st.draggingPieceId ≠ some pieceId) := by
      push_neg
      exact ⟨h1, h2⟩
    have g2 : ¬ st.activeTouchCount > 1 := by omega
    rw [globalPointerMove, if_neg g1, if_neg g2]
    exact ⟨rfl, rfl⟩
  · simp only [List.scanl]
    rw [show stickySnapAxis 10 10 10 = 10 by
          rw [stickySnapAxis, if_pos (by norm_num)]
          norm_num,
        show stickySnapAxis 10 10 14 = 10 by
          rw [stickySnapAxis, if_pos (by norm_num)]
          rw [if_neg]
          norm_num,
        show stickySnapAxis 10 10 19 = 20 by
          rw [stickySnapAxis, if_pos (by norm_num), if_pos (by norm_num)]
          norm_num [jsRound],
        show stickySnapAxis 10 20 26 = 30 by
          rw [stickySnapAxis, if_pos (by norm_num), if_pos (by norm_num)]
          norm_num [jsRound],
        show stickySnapAxis 10 30 31 = 30 by
          rw [stickySnapAxis, if_pos (by norm_num)]
          rw [if_neg]
          norm_num]

/-- Witness for C2 at concrete inputs: crossing the threshold from 10 with
raw 19 at size 10 snaps to the rounded grid point, staying within half a cell
retains 10, and a zero size passes raw through. -/
theorem C2_sticky_snap_witness :
    stickySnapAxis 10 10 19 = (jsRound ((19 : ℚ) / 10) : ℚ) * 10 ∧
    stickySnapAxis 10 10 14 = 10 ∧
    stickySnapAxis 0 10 14 = 14 := by
  refine ⟨(C2_sticky_snap.1 10 10 19 (by norm_num)).1 (by norm_num),
          (C2_sticky_snap.1 10 10 14 (by norm_num)).2 (by norm_num),
          C2_sticky_snap.2.1 0 10 14 (by norm_num)⟩

/-- C7: getWinRating implements the strict tier policy: Perfect at exactly 0,
Great strictly between 0 and 0.01, Good in [0.01, 0.1), and no rating at or
above 0.1. -/
theorem C7_rating_tiers :
    ∀ e : ℚ,
      (e = 0 → getWinRating e = some .Perfect) ∧
      (0 < e → e < 1/100 → getWinRating e = some .Great) ∧
      (1/100 ≤ e → e < 1/10 → getWinRating e = some .Good) ∧
      (1/10 ≤ e → getWinRating e = none) := by
  intro e
  refine ⟨?_, ?_, ?_, ?_⟩
  · intro h
    rw [getWinRating, if_pos h]
  · intro h1 h2
    rw [getWinRating, if_neg (by linarith), if_pos h2]
  · intro h1 h2
    rw [getWinRating, if_neg (by linarith), if_neg (by linarith), if_pos h2]
  · intro h
    rw [getWinRating, if_neg (by linarith), if_neg (by linarith),
      if_neg (by linarith)]

/-- Witness for C7 with one value in each tier. -/
theorem C7_rating_tiers_witness :
    getWinRating 0 = some .Perfect ∧
    getWinRating (1/200) = some .Great ∧
    getWinRating (1/20) = some .Good ∧
    getWinRating 1 = none := by
  refine ⟨(C7_rating_tiers 0).1 rfl,
          (C7_rating_tiers (1/200)).2.1 (by norm_num) (by norm_num),
          (C7_rating_tiers (1/20)).2.2.1 (by norm_num) (by norm_num),
          (C7_rating_tiers 1).2.2.2 (by norm_num)⟩

/-- C9: on pointer-down on the already selected piece with at most one active
touch: within 300 ms of the last tap, a double-tap signal fires, the tap
timer resets and no drag starts (the state is otherwise unchanged);
otherwise the tap timestamp is recorded, the piece is selected and dragging
begins with the snap anchor and drag offset initialized. -/
theorem C9_pointerdown_double_tap :
    ∀ (st : EngineState) (pieceId : String) (now : ℤ) (sx sy gx gy : ℚ),
      st.activeTouchCount ≤ 1 →
      st.selectedPieceId = some pieceId →
      (now - st.lastTapTime < 300 →
        pointerDown st pieceId now sx sy gx gy
          = ({ st with lastTapTime := 0 }, [.doubleTap pieceId])) ∧
      (¬ now - st.lastTapTime < 300 →
        pointerDown st pieceId now sx sy gx gy
          = ({ st with
                lastTapTime := now
                selectedPieceId := some pieceId
                isDragging := true
                draggingPieceId := some pieceId
                lastSnappedX := sx
                lastSnappedY := sy
                targetPosition := (sx, sy)
                dragOffset := (sx - gx, sy - gy) },
             [.pieceSelect (some pieceId)])) := by
  intro st pieceId now sx sy gx gy h1 h2
  have g : ¬ st.activeTouchCount > 1 := by omega
  constructor
  · intro h3
    rw [pointerDown, if_neg g]
    simp only
    rw [if_pos ⟨h3, h2⟩]
  · intro h3
    rw [pointerDown, if_neg g]
    simp only
    rw [if_neg (by
      rintro ⟨ha, _⟩
      exact h3 ha)]

/-- Witness for C9: a second tap 200 ms after the first on the selected piece
fires the double tap without dragging; a tap 400 ms later starts a drag. -/
theorem C9_pointerdown_double_tap_witness :
    (pointerDown { idleEngine with selectedPieceId := some "p1", lastTapTime := 100 }
        "p1" 300 1 2 3 4
      = ({ idleEngine with selectedPieceId := some "p1", lastTapTime := 0 },
         [.doubleTap "p1"])) ∧
    (pointerDown { idleEngine with selectedPieceId := some "p1", lastTapTime := 100 }
        "p1" 500 1 2 3 4
      = ({ idleEngine with
            lastTapTime := 500
            selectedPieceId := some "p1"
            isDragging := true
            draggingPieceId := some "p1"
            lastSnappedX := 1
            lastSnappedY := 2
            targetPosition := (1, 2)
            dragOffset := (1 - 3, 2 - 4) },
         [.pieceSelect (some "p1")])) := by
  constructor
  · exact (C9_pointerdown_double_tap
      { idleEngine with selectedPieceId := some "p1", lastTapTime := 100 }
      "p1" 300 1 2 3 4 (by decide) rfl).1 (by decide)
  · exact (C9_pointerdown_double_tap
      { idleEngine with selectedPieceId := some "p1", lastTapTime := 100 }
      "p1" 500 1 2 3 4 (by decide) rfl).2 (by decide)

/-- C10: the selected snap setting is never used directly as a grid size:
setting 1, 5, 10 maps to actual size 5, 10, 20 both in snapToGrid and in the
size getSnapState hands to the drag engine, snapToGrid always lands on a
multiple of the mapped size, and the mapped size always differs from the
selected value; concretely, at setting 1 the value 3 snaps to 5, not 3. -/
theorem C10_snap_mapping :
    (∀ (st : GameStoreState) (v : ℚ),
      (st.snapSize = .s1 →
        (getSnapState st).2 = 5 ∧ snapToGrid st v = (jsRound (v / 5) : ℚ) * 5) ∧
      (st.snapSize = .s5 →
        (getSnapState st).2 = 10 ∧ snapToGrid st v = (jsRound (v / 10) : ℚ) * 10) ∧
      (st.snapSize = .s10 →
        (getSnapState st).2 = 20 ∧ snapToGrid st v = (jsRound (v / 20) : ℚ) * 20) ∧
      (∃ k : ℤ, snapToGrid st v = (k : ℚ) * (getSnapState st).2) ∧
      (getSnapState st).2 ≠ st.snapSize.val) ∧
    snapToGrid (setSnapSize emptyStore .s1) 3 = 5 := by
  constructor
  · intro st v
    refine ⟨?_, ?_, ?_, ?_, ?_⟩
    · intro h
      constructor
      · simp [getSnapState, h]
      · simp [snapToGrid, h]
    · intro h
      constructor
      · simp [getSnapState, h]
      · simp [snapToGrid, h]
    · intro h
      constructor
      · simp [getSnapState, h]
      · simp [snapToGrid, h]
    · cases hs : st.snapSize
      · exact ⟨jsRound (v / 5), by simp [snapToGrid, getSnapState, hs]⟩
      · exact ⟨jsRound (v / 10), by simp [snapToGrid, getSnapState, hs]⟩
      · exact ⟨jsRound (v / 20), by simp [snapToGrid, getSnapState, hs]⟩
    · cases hs : st.snapSize <;> simp [getSnapState, SnapSize.val, hs]
  · rw [snapToGrid]
    simp [setSnapSize, emptyStore]
    norm_num [jsRound]

/-- Witness for C10 at each concrete setting. -/
theorem C10_snap_mapping_witness :
    (getSnapState (setSnapSize emptyStore .s1)).2 = 5 ∧
    (getSnapState (setSnapSize emptyStore .s5)).2 = 10 ∧
    (getSnapState (setSnapSize emptyStore .s10)).2 = 20 := by
  refine ⟨((C10_snap_mapping.1 (setSnapSize emptyStore .s1) 0).1 rfl).1,
          ((C10_snap_mapping.1 (setSnapSize emptyStore .s5) 0).2.1 rfl).1,
          ((C10_snap_mapping.1 (setSnapSize emptyStore .s10) 0).2.2.1 rfl).1⟩

/-- C3 counterexample: calculateError is 0 for a piece whose rotation does
not equal the target rotation (180 versus -180), refuting the only-if
direction of the claim as stated. -/
theorem C3_error_zero_counterexample :
    calculateError [c3Piece] = 0 ∧
    c3Piece.current.rotation ≠ c3Piece.target.rotation := by
  constructor
  · show List.foldl _ 0 _ = 0
    simp [c3Piece]
    norm_num
  · show (180 : ℚ) ≠ -180
    norm_num

/-- C3 amended: the total error is always nonnegative, and it is 0 exactly
when every piece matches its target in x, y, scaleX and scaleY and its
rotation differs from the target rotation by a whole multiple of 360
degrees. -/
theorem C3_error_nonneg_zero_iff :
    ∀ pieces : List (PieceState ℚ),
      0 ≤ calculateError pieces ∧
      (calculateError pieces = 0 ↔ ∀ p ∈ pieces,
        p.current.x = p.target.x ∧ p.current.y = p.target.y ∧
        (∃ k : ℤ, p.current.rotation - p.target.rotation = 360 * k) ∧
        p.current.scaleX = p.target.scaleX ∧
        p.current.scaleY = p.target.scaleY) := by
  intro pieces
  refine ⟨calculateError_nonneg pieces, ?_⟩
  rw [calculateError_eq_zero_iff]
  constructor
  · intro h p hp
    obtain ⟨h1, h2, h3, h4, h5⟩ := (pieceErrorTerm_eq_zero_iff p).mp (h p hp)
    obtain ⟨k, hk⟩ := (normalizeAngle_eq_zero_iff _).mp h3
    exact ⟨h1, h2, ⟨k, by exact_mod_cast hk⟩, h4, h5⟩
  · intro h p hp
    obtain ⟨h1, h2, ⟨k, hk⟩, h4, h5⟩ := h p hp
    exact (pieceErrorTerm_eq_zero_iff p).mpr
      ⟨h1, h2, (normalizeAngle_eq_zero_iff _).mpr ⟨k, by exact_mod_cast hk⟩, h4, h5⟩

/-- Witness for C3 on a concrete exact piece. -/
theorem C3_error_nonneg_zero_iff_witness :
    0 ≤ calculateError [c3Exact] ∧ calculateError [c3Exact] = 0 := by
  refine ⟨(C3_error_nonneg_zero_iff [c3Exact]).1,
          (C3_error_nonneg_zero_iff [c3Exact]).2.mpr ?_⟩
  intro p hp
  rw [List.mem_singleton] at hp
  subst hp
  exact ⟨rfl, rfl, ⟨0, by norm_num [c3Exact, tfZero]⟩, rfl, rfl⟩

/-- C4: the first passing win evaluation jumps PLAYING directly to WIN.
The GameState union of the source has no WINNING member and checkWinCondition
writes WIN in the same update that records the rating, so there is no
transient WINNING window between PLAYING and WIN. -/
theorem C4_win_skips_winning :
    (loadLevel emptyStore c4Config 0).gameState = .PLAYING ∧
    c4Store1.gameState = .PLAYING ∧
    (checkWinCondition c4Store1).gameState = .WIN ∧
    (checkWinCondition c4Store1).winRating = some .Perfect := by
  have hpieces : c4Store1.pieces
      = [{ id := "p1", texture := "",
           current := { x := 100, y := 50, rotation := 0, scaleX := 1, scaleY := 1 },
           target := { x := 100, y := 50, rotation := 0, scaleX := 1, scaleY := 1 } }] := by
    simp [c4Store1, updatePieceTransform, mergePatch, loadLevel,
      loadLevelPieces, emptyStore, c4Config, tfZero, List.find?]
  have herr : calculateError c4Store1.pieces = 0 := by
    rw [hpieces]
    show List.foldl _ 0 _ = 0
    simp
  have hrating : getWinRating (calculateError c4Store1.pieces) = some .Perfect := by
    rw [herr, getWinRating, if_pos rfl]
  have hlevel : c4Store1.levelConfig = some c4Config := by
    rw [c4Store1, updatePieceTransform_levelConfig]
    rfl
  have hwin := checkWinCondition_of_rating c4Store1 c4Config .Perfect hlevel hrating
  refine ⟨rfl, ?_, ?_, ?_⟩
  · rw [c4Store1, updatePieceTransform_gameState]
    rfl
  · rw [hwin]
  · rw [hwin]

/-- C5 counterexample: loadLevel persists the config transforms verbatim, so
a rotation of 270 (outside [-180, 180]) and a scale of 3 (outside [0.5, 2])
are stored raw, refuting the claim for the load operation. -/
theorem C5_loadLevel_unclamped_counterexample :
    (c5Store.pieces.map fun p => (p.current.rotation, p.current.scaleX))
        = [(270, 3)] ∧
    ¬ ((270 : ℚ) ≤ 180) ∧ ¬ ((3 : ℚ) ≤ 2) := by
  refine ⟨rfl, by norm_num, by norm_num⟩

/-- C5 amended: every piece written by updatePieceTransform either is an
unchanged old piece or has each provided rotation normalized into [-180, 180]
and each provided scale clamped into [0.5, 2]; loadLevel, by contrast, copies
the config transforms verbatim. -/
theorem C5_update_normalizes_load_copies :
    (∀ (st : GameStoreState) (id : String) (patch : TransformPatch)
        (p' : PieceState ℚ),
      p' ∈ (updatePieceTransform st id patch).pieces →
      p' ∈ st.pieces ∨
      ((patch.rotation.isSome →
          -180 ≤ p'.current.rotation ∧ p'.current.rotation ≤ 180) ∧
       (patch.scaleX.isSome →
          1/2 ≤ p'.current.scaleX ∧ p'.current.scaleX ≤ 2) ∧
       (patch.scaleY.isSome →
          1/2 ≤ p'.current.scaleY ∧ p'.current.scaleY ≤ 2))) ∧
    (∀ (cfg : LevelConfig ℚ) (st : GameStoreState) (now : ℤ),
      ((loadLevel st cfg now).pieces.map fun p => p.current)
          = cfg.pieces.map (fun p => p.start_transform) ∧
      ((loadLevel st cfg now).pieces.map fun p => p.target)
          = cfg.pieces.map (fun p => p.target_transform)) := by
  constructor
  · intro st id patch p' hp'
    unfold updatePieceTransform at hp'
    cases hfind : st.pieces.find? (fun p => p.id = id) with
    | none =>
        rw [hfind] at hp'
        exact Or.inl hp'
    | some piece =>
        rw [hfind] at hp'
        simp only [List.mem_map] at hp'
        obtain ⟨p, hp, hpe⟩ := hp'
        by_cases hid : p.id = id
        · rw [if_pos hid] at hpe
          right
          subst hpe
          refine ⟨?_, ?_, ?_⟩
          · intro hs
            obtain ⟨v, hv⟩ := Option.isSome_iff_exists.mp hs
            simp only [mergePatch, hv]
            exact ⟨le_normalizeAngle v, normalizeAngle_le v⟩
          · intro hs
            obtain ⟨v, hv⟩ := Option.isSome_iff_exists.mp hs
            simp only [mergePatch, hv]
            exact ⟨le_clampScale v, clampScale_le v⟩
          · intro hs
            obtain ⟨v, hv⟩ := Option.isSome_iff_exists.mp hs
            simp only [mergePatch, hv]
            exact ⟨le_clampScale v, clampScale_le v⟩
        · rw [if_neg hid] at hpe
          subst hpe
          exact Or.inl hp
  · intro cfg st now
    constructor <;> simp [loadLevel, loadLevelPieces, List.map_map, Function.comp]

/-- Witness for C5: applying a patch with rotation 270 and scaleX 3 to the
freshly loaded C5 store stores the normalized and clamped piece, which the
amended theorem classifies accordingly. -/
theorem C5_update_normalizes_witness :
    c5Updated ∈ c5Store.pieces ∨
    ((c5Patch.rotation.isSome →
        -180 ≤ c5Updated.current.rotation ∧ c5Updated.current.rotation ≤ 180) ∧
     (c5Patch.scaleX.isSome →
        1/2 ≤ c5Updated.current.scaleX ∧ c5Updated.current.scaleX ≤ 2) ∧
     (c5Patch.scaleY.isSome →
        1/2 ≤ c5Updated.current.scaleY ∧ c5Updated.current.scaleY ≤ 2)) := by
  refine C5_update_normalizes_load_copies.1 c5Store "p1" c5Patch c5Updated ?_
  simp [updatePieceTransform, c5Store, c5Patch, c5Updated, loadLevel,
    loadLevelPieces, emptyStore, c5Config, tfZero, mergePatch,
    normalizeAngle_270, clampScale_three]

/-- C6 counterexample: a further checkWinCondition in state WIN with a still
passing but larger error overwrites the stored Perfect rating with Good —
the rating can be replaced by a worse one, refuting the claimed no-op. -/
theorem C6_rating_downgrade_counterexample :
    c6Store.gameState = .WIN ∧ c6Store.winRating = some .Perfect ∧
    (checkWinCondition c6Store).winRating = some .Good ∧
    (checkWinCondition c6Store).gameState = .WIN := by
  have habs : |(1 : ℚ)/20| = 1/20 := abs_of_pos (by norm_num)
  have herr : calculateError c6Store.pieces = 1/20 := by
    show List.foldl _ 0 _ = 1/20
    simp [c6Store, emptyStore, c6Piece, tfZero, habs]
  have hrating : getWinRating (calculateError c6Store.pieces) = some .Good := by
    rw [herr, getWinRating, if_neg (by norm_num), if_neg (by norm_num),
      if_pos (by norm_num)]
  have hwin := checkWinCondition_of_rating c6Store { pieces := [] } .Good rfl hrating
  refine ⟨rfl, rfl, ?_, ?_⟩ <;> rw [hwin]

/-- C6 amended: once the state is WIN, checkWinCondition keeps it WIN and
never clears a set rating; when the current error yields no passing rating it
leaves winRating untouched — but a passing rating overwrites it (see the
counterexample). -/
theorem C6_after_win_no_clear :
    ∀ st : GameStoreState, st.gameState = .WIN →
      (checkWinCondition st).gameState = .WIN ∧
      (st.winRating.isSome → (checkWinCondition st).winRating.isSome) ∧
      (getWinRating (calculateError st.pieces) = none →
        (checkWinCondition st).winRating = st.winRating) := by
  intro st h
  cases hc : st.levelConfig with
  | none =>
      rw [checkWinCondition_of_no_level st hc]
      exact ⟨h, fun hs => hs, fun _ => rfl⟩
  | some cfg =>
      rcases Option.eq_none_or_eq_some (getWinRating (calculateError st.pieces))
        with hr | ⟨r, hr⟩
      · rw [checkWinCondition_of_no_rating st cfg hc hr]
        exact ⟨h, fun hs => hs, fun _ => rfl⟩
      · rw [checkWinCondition_of_rating st cfg r hc hr]
        refine ⟨rfl, fun _ => rfl, fun hn => ?_⟩
        rw [hn] at hr
        cases hr

/-- Witness for C6 at the concrete post-win store. -/
theorem C6_after_win_no_clear_witness :
    (checkWinCondition c6Store).gameState = .WIN ∧
    (checkWinCondition c6Store).winRating.isSome := by
  have h := C6_after_win_no_clear c6Store rfl
  exact ⟨h.1, h.2.1 rfl⟩

/-- C1: replay does not reproduce the live session.  A live fine_move step
moves the piece by the selected snapSize (here 5 px) but records only the
direction; replaying the recorded log applies exactly 1 px, so the replayed
final x is 1 while the live final x is 5. -/
theorem C1_replay_fine_move_diverges :
    (c1Live.pieces.map fun p => p.current.x) = [5] ∧
    c1Live.actionLogs
      = [{ timestamp := 1000, pieceId := "p1", type := .fine_move,
           payload := { direction := some .right } }] ∧
    ((replayAll c1Config c1Live.actionLogs).map fun e => e.2.x) = [1] ∧
    (5 : ℚ) ≠ 1 := by
  have hlog : c1Live.actionLogs
      = [{ timestamp := 1000, pieceId := "p1", type := .fine_move,
           payload := { direction := some .right } }] := by
    simp [c1Live, handleZoneAction, c1Store, c1Config, loadLevel,
      loadLevelPieces, tfZero, emptyStore, fineMoveStep, addActionLog,
      checkWinCondition_actionLogs, updatePieceTransform_actionLogs,
      updatePieceTransform_gameStartTime, List.find?, SnapSize.val]
  refine ⟨?_, hlog, ?_, by norm_num⟩
  · simp [c1Live, handleZoneAction, c1Store, c1Config, loadLevel,
      loadLevelPieces, tfZero, emptyStore, fineMoveStep,
      checkWinCondition_pieces, addActionLog_pieces, updatePieceTransform,
      mergePatch, List.find?, SnapSize.val]
  · rw [hlog]
    simp [replayAll, applyAction, initReplayPieces, c1Config, tfZero,
      List.find?]

/-- C8 counterexample: loading the malformed config does not fail and does
not substitute — the non-finite values are persisted verbatim into the piece
state, refuting the claimed fail-fast validation. -/
theorem C8_no_validation_counterexample :
    ((loadLevelPieces c8BadConfig).map fun p => p.current.x) = [JsNumber.nan] ∧
    ((loadLevelPieces c8BadConfig).map fun p => p.current.rotation)
        = [JsNumber.posInf] := by
  exact ⟨rfl, rfl⟩

/-- C8 amended: loadLevel performs no validation and never fails — for every
config it enters PLAYING with the config transforms copied verbatim — and the
only fallback is at piece creation, where a missing optional shape defaults
to the fixed 100 by 100. -/
theorem C8_load_total_shape_default :
    (∀ (cfg : LevelConfig ℚ) (st : GameStoreState) (now : ℤ),
      (loadLevel st cfg now).gameState = .PLAYING ∧
      (loadLevel st cfg now).pieces = loadLevelPieces cfg) ∧
    (∀ (α : Type) (cfg : LevelConfig α),
      ((loadLevelPieces cfg).map fun p => p.current)
          = cfg.pieces.map fun p => p.start_transform) ∧
    createPieceWidth none = 100 ∧ createPieceHeight none = 100 ∧
    (∀ s : PieceShape, createPieceWidth (some s) = s.width ∧
      createPieceHeight (some s) = s.height) := by
  refine ⟨fun cfg st now => ⟨rfl, rfl⟩, ?_, rfl, rfl, fun s => ⟨rfl, rfl⟩⟩
  intro α cfg
  simp [loadLevelPieces, List.map_map, Function.comp]

end PerfectAlign

